import Mathlib

/-!
Shallow embedding of the dualZoneCli broker (src/src/main.rs and
src/src/user_input/structs.rs) and proofs about the claims of its
specification.

The registry maps (`HashMap<String, _>`) are embedded as association
lists with unique keys; `generate_id` calls `std`'s `DefaultHasher`,
whose algorithm Rust leaves unspecified, so the operations are
parameterized by the id-derivation function `gid : String → String`
(the program may rely only on its determinism); concrete evaluations
instantiate `gid` with the stand-in `hashStandIn`.
-/

namespace DualZone

/-! ### Rust string primitives used by the loops -/

/-- The code points with the Unicode White_Space property, which is what
Rust's `str::trim` (via `char::is_whitespace`) strips. -/
def rustWhitespaceCodes : List Nat :=
  [0x09, 0x0A, 0x0B, 0x0C, 0x0D, 0x20, 0x85, 0xA0, 0x1680,
   0x2000, 0x2001, 0x2002, 0x2003, 0x2004, 0x2005, 0x2006, 0x2007,
   0x2008, 0x2009, 0x200A, 0x2028, 0x2029, 0x202F, 0x205F, 0x3000]

/-- Embedding of Rust `char::is_whitespace`. -/
def isRustWhitespace (c : Char) : Bool :=
  rustWhitespaceCodes.contains c.toNat

/-- Strip leading and trailing whitespace characters from a character list. -/
def trimChars (l : List Char) : List Char :=
  ((l.dropWhile isRustWhitespace).reverse.dropWhile isRustWhitespace).reverse

/-- Embedding of Rust `str::trim`. -/
def rustTrim (s : String) : String :=
  String.mk (trimChars s.data)

/-- ASCII lowercasing of a single character, as in Rust
`u8::to_ascii_lowercase` (only `A`..`Z` are mapped). -/
def asciiLower (c : Char) : Char :=
  if 65 ≤ c.toNat ∧ c.toNat ≤ 90 then Char.ofNat (c.toNat + 32) else c

/-- Embedding of Rust `str::eq_ignore_ascii_case`: equality after ASCII
lowercasing (character-wise; on the ASCII-only differences it checks this
agrees with Rust's byte-wise comparison). -/
def eqIgnoreAsciiCase (a b : String) : Bool :=
  a.data.map asciiLower == b.data.map asciiLower

/-- The reserved sentinel payload of src/src/main.rs. -/
def USER_BREAK : String := "USER_BREAK_$0uU"

/-- The consumer's stop test, src/src/main.rs line 98:
`input.clone().trim().eq_ignore_ascii_case("USER_BREAK_$0uU")`. -/
def sentinelTest (m : String) : Bool :=
  eqIgnoreAsciiCase (rustTrim m) USER_BREAK

/-! ### The OutputTask consumer loop (src/src/main.rs lines 90-126) -/

/-- What one iteration of the consumer loop does after `recv`. -/
inductive ConsumerAct where
  | stop
  | render (m : String)
deriving DecidableEq

/-- One iteration of the `output_handle` loop: a `None` from `recv`
(closed channel) is replaced by the literal sentinel string (line 95),
then the stop test of line 98 decides between breaking and rendering. -/
def consumerStep (r : Option String) : ConsumerAct :=
  let input := match r with
    | some i => i
    | none => USER_BREAK
  if sentinelTest input then ConsumerAct.stop else ConsumerAct.render input

/-- The consumer loop run over a finite trace of `recv` results, collecting
the messages it renders, in order; it stops at the first
`ConsumerAct.stop`. -/
def consumerRun : List (Option String) → List String
  | [] => []
  | r :: rs =>
    match consumerStep r with
    | ConsumerAct.stop => []
    | ConsumerAct.render m => m :: consumerRun rs

/-! ### The InputTask loop (src/src/main.rs lines 52-84) -/

/-- The possible results of `reader.read_line(&mut input).await`:
`Ok(n)` together with the buffer contents after the read (at end of
input `read_line` returns `Ok(0)` and leaves the buffer empty), an
`Interrupted` error, or any other error. -/
inductive ReadResult where
  | ok (n : Nat) (buf : String)
  | interrupted
  | readErr
deriving DecidableEq

/-- The guard of the first match arm, line 62:
`input.trim().eq_ignore_ascii_case("exit") || input.trim().eq_ignore_ascii_case("quit")`. -/
def isExitWord (s : String) : Bool :=
  eqIgnoreAsciiCase s "exit" || eqIgnoreAsciiCase s "quit"

/-- The observable effect of one iteration of the `input_handle` loop:
`enqueued` is the message actually enqueued into the channel (the awaited
send of line 69), `droppedSendArg` is the argument of a send future that
is created but never awaited and hence never enqueues (line 63 lacks
`.await`), and `stops` tells whether the iteration breaks the loop. -/
structure InputAct where
  enqueued : Option String
  droppedSendArg : Option String
  stops : Bool
deriving DecidableEq

/-- One iteration of the `input_handle` loop body (the `match` of lines
60-82). In Rust a guard applies to every alternative of an or-pattern, so
the arm `Ok(0) | Ok(_) if <exit/quit guard>` matches any `Ok` result whose
buffer trims to an exit word — and nothing else; a plain `Ok` (including
`Ok(0)` at end of input) falls to the second arm, which enqueues the
trimmed buffer and continues. The first arm's sentinel send is not
awaited, so it enqueues nothing. -/
def inputStep : ReadResult → InputAct
  | ReadResult.ok _ buf =>
    if isExitWord (rustTrim buf) then
      { enqueued := none, droppedSendArg := some USER_BREAK, stops := true }
    else
      { enqueued := some (rustTrim buf), droppedSendArg := none, stops := false }
  | ReadResult.interrupted => { enqueued := none, droppedSendArg := none, stops := true }
  | ReadResult.readErr => { enqueued := none, droppedSendArg := none, stops := true }

/-! ### Association maps embedding `HashMap<String, V>` -/

/-- `HashMap<String, α>` embedded as an association list with unique keys. -/
abbrev AMap (α : Type) : Type := List (String × α)

/-- `HashMap::get`. -/
def lookupA {α : Type} : AMap α → String → Option α
  | [], _ => none
  | (k, v) :: rest, key => if k = key then some v else lookupA rest key

/-- Key removal (the mutation performed by `HashMap::remove`). -/
def eraseA {α : Type} (key : String) : AMap α → AMap α
  | [] => []
  | (k, v) :: rest =>
    if k = key then eraseA key rest else (k, v) :: eraseA key rest

/-- `HashMap::insert`: replaces any existing binding of the key. -/
def insertA {α : Type} (key : String) (v : α) (m : AMap α) : AMap α :=
  (key, v) :: eraseA key m

/-! ### The Console registry (src/src/user_input/structs.rs) -/

/-- The `SenderStatus` enum, structs.rs lines 234-240. -/
inductive SenderStatus where
  | Authorized
  | BlackListed
  | NotAuthorized
  | NotInPhonebook
deriving DecidableEq

/-- The registry-relevant state of the `Console` struct (structs.rs lines
28-36) together with the contents of its single mpsc channel: `phonebook`
maps a derived id to `(plaintext name, status)`; `Authorized` and
`BlackListed` map derived ids to producer handles (every handle is a clone
of the one `tx`, embedded as `Unit`); `queue` holds the messages enqueued
into the channel, in FIFO order. -/
structure ConsoleState where
  phonebook : AMap (String × SenderStatus)
  Authorized : AMap Unit
  BlackListed : AMap Unit
  queue : List String
deriving DecidableEq

/-- `Console::default` / `Console::init`: empty maps, empty channel. -/
def initialConsole : ConsoleState :=
  { phonebook := [], Authorized := [], BlackListed := [], queue := [] }

/-- `Console::new_sender` (structs.rs lines 85-91), parameterized by the
id derivation `gid` standing for `Console::generate_id`: inserts the id
into `Authorized` and inserts `(name, SenderStatus::Authorized)` into the
phonebook, returning a clone of `tx` (the clone itself carries no state
beyond the shared channel, so only the state update is embedded). -/
def new_sender (gid : String → String) (name : String) (st : ConsoleState) : ConsoleState :=
  let signed_name := gid name
  { st with
    Authorized := insertA signed_name () st.Authorized,
    phonebook := insertA signed_name (name, SenderStatus.Authorized) st.phonebook }

/-- `Console::get_sender_status` (structs.rs lines 122-132): phonebook
lookup by derived id, `NotInPhonebook` on a miss. -/
def get_sender_status (st : ConsoleState) (search_name : String) : SenderStatus :=
  match lookupA st.phonebook search_name with
  | some s => s.2
  | none => SenderStatus.NotInPhonebook

/-- `Console::change_sender_status` (structs.rs lines 153-174): first
looks the phonebook up under `gid search_name`; on a hit, re-inserts under
that id with the new status. On a miss it looks `search_name` up as a
literal phonebook key; on a hit there it still inserts under
`gid search_name` (the id computed on line 154 — note: not under the key
that was found); when both lookups miss it only prints, leaving the state
unchanged. -/
def change_sender_status (gid : String → String) (search_name : String)
    (new_status : SenderStatus) (st : ConsoleState) : ConsoleState :=
  let id := gid search_name
  match lookupA st.phonebook id with
  | some s => { st with phonebook := insertA id (s.1, new_status) st.phonebook }
  | none =>
    match lookupA st.phonebook search_name with
    | some s => { st with phonebook := insertA id (s.1, new_status) st.phonebook }
    | none => st

/-- `Console::add_to_blacklist` (structs.rs lines 179-190):
`Authorized.remove(&gid identifier)`; when the id was present its handle
moves to `BlackListed`, otherwise it only prints "Sender not found" and
the state is unchanged. -/
def add_to_blacklist (gid : String → String) (identifier : String) (st : ConsoleState) : ConsoleState :=
  let id := gid identifier
  match lookupA st.Authorized id with
  | some s =>
    { st with
      Authorized := eraseA id st.Authorized,
      BlackListed := insertA id s st.BlackListed }
  | none => st

/-- A send through a producer handle returned by `new_sender`. Every such
handle is a clone of `Console.tx`, and tokio's `mpsc::Sender::send`
enqueues unconditionally; the code offers no checked-send wrapper, so no
registry lookup happens on this path. -/
def rawSend (st : ConsoleState) (m : String) : ConsoleState :=
  { st with queue := st.queue ++ [m] }

/-- Deterministic, injective stand-in for `Console::generate_id`
(structs.rs lines 96-101). The real function feeds the name through
`std`'s `DefaultHasher`, whose algorithm Rust explicitly leaves
unspecified, so the code may rely only on determinism of the digest;
concrete evaluations use this stand-in as the `gid` parameter. -/
def hashStandIn (s : String) : String := "#" ++ s

/-! ### Registry operation sequences (reachable states) -/

/-- The registry-mutating operations of the `Console`. -/
inductive Op where
  | newSender (name : String)
  | blacklistOp (ident : String)
  | setStatus (name : String) (s : SenderStatus)
deriving DecidableEq

/-- Apply one registry operation. -/
def applyOp (gid : String → String) : Op → ConsoleState → ConsoleState
  | Op.newSender name, st => new_sender gid name st
  | Op.blacklistOp ident, st => add_to_blacklist gid ident st
  | Op.setStatus name s, st => change_sender_status gid name s st

/-- Run a sequence of registry operations from a given state. -/
def runFrom (gid : String → String) : ConsoleState → List Op → ConsoleState
  | st, [] => st
  | st, op :: rest => runFrom gid (applyOp gid op st) rest

/-- States reachable from the empty `Console`. -/
def runOps (gid : String → String) (ops : List Op) : ConsoleState :=
  runFrom gid initialConsole ops

/-- Disjointness of the key sets of two maps, as a boolean. -/
def disjointKeysB {α β : Type} (a : AMap α) (b : AMap β) : Bool :=
  a.all (fun p => (lookupA b p.1).isNone)

/-- The side condition under which one operation preserves
Authorized/BlackListed key disjointness: `new_sender` must not be called
for a name whose derived id is currently blacklisted. -/
def opSafeB (gid : String → String) (st : ConsoleState) : Op → Bool
  | Op.newSender name => (lookupA st.BlackListed (gid name)).isNone
  | Op.blacklistOp _ => true
  | Op.setStatus _ _ => true

/-- The side condition along a whole operation sequence. -/
def safeOpsB (gid : String → String) : ConsoleState → List Op → Bool
  | _, [] => true
  | st, op :: rest => opSafeB gid st op && safeOpsB gid (applyOp gid op st) rest

/-! ### Association map lemmas -/

theorem lookupA_insertA_self {α : Type} (k : String) (v : α) (m : AMap α) :
    lookupA (insertA k v m) k = some v := by
  simp [insertA, lookupA]

theorem lookupA_eraseA {α : Type} (k x : String) (m : AMap α) :
    lookupA (eraseA k m) x = if x = k then none else lookupA m x := by
  induction m with
  | nil => simp [eraseA, lookupA]
  | cons p rest ih =>
    obtain ⟨a, v⟩ := p
    by_cases hak : a = k <;> by_cases hax : a = x <;>
      simp_all [eraseA, lookupA]

theorem mem_eraseA {α : Type} {p : String × α} {k : String} {m : AMap α}
    (h : p ∈ eraseA k m) : p ∈ m ∧ p.1 ≠ k := by
  induction m with
  | nil => simp [eraseA] at h
  | cons q rest ih =>
    obtain ⟨a, v⟩ := q
    by_cases hak : a = k
    · simp only [eraseA, if_pos hak] at h
      exact ⟨List.mem_cons_of_mem _ (ih h).1, (ih h).2⟩
    · simp only [eraseA, if_neg hak] at h
      rcases List.mem_cons.mp h with h | h
      · subst h
        exact ⟨List.mem_cons_self _ _, hak⟩
      · exact ⟨List.mem_cons_of_mem _ (ih h).1, (ih h).2⟩

theorem disjointKeysB_iff {α β : Type} (a : AMap α) (b : AMap β) :
    disjointKeysB a b = true ↔ ∀ p ∈ a, lookupA b p.1 = none := by
  simp [disjointKeysB, List.all_eq_true, Option.isNone_iff_eq_none]

/-- The consumer's stop test accepts the literal sentinel. -/
theorem sentinelTest_USER_BREAK : sentinelTest USER_BREAK = true := by decide

/-- `change_sender_status` touches only the phonebook. -/
theorem change_sender_status_Authorized (gid : String → String) (n : String)
    (s : SenderStatus) (st : ConsoleState) :
    (change_sender_status gid n s st).Authorized = st.Authorized := by
  unfold change_sender_status
  cases h1 : lookupA st.phonebook (gid n) <;> simp [h1]
  cases h2 : lookupA st.phonebook n <;> simp [h2]

/-- `change_sender_status` touches only the phonebook. -/
theorem change_sender_status_BlackListed (gid : String → String) (n : String)
    (s : SenderStatus) (st : ConsoleState) :
    (change_sender_status gid n s st).BlackListed = st.BlackListed := by
  unfold change_sender_status
  cases h1 : lookupA st.phonebook (gid n) <;> simp [h1]
  cases h2 : lookupA st.phonebook n <;> simp [h2]

/-- One safe operation preserves Authorized/BlackListed key disjointness. -/
theorem disjoint_preserved (gid : String → String) (op : Op) (st : ConsoleState)
    (hd : disjointKeysB st.Authorized st.BlackListed = true)
    (hs : opSafeB gid st op = true) :
    disjointKeysB (applyOp gid op st).Authorized (applyOp gid op st).BlackListed = true := by
  cases op with
  | newSender name =>
    rw [disjointKeysB_iff] at hd ⊢
    intro p hp
    simp only [applyOp, new_sender, insertA] at hp ⊢
    rcases List.mem_cons.mp hp with h | h
    · subst h
      simpa [opSafeB, Option.isNone_iff_eq_none] using hs
    · exact hd p (mem_eraseA h).1
  | blacklistOp ident =>
    rcases hA : lookupA st.Authorized (gid ident) with _ | u
    · simpa [applyOp, add_to_blacklist, hA] using hd
    · rw [disjointKeysB_iff] at hd ⊢
      intro p hp
      simp only [applyOp, add_to_blacklist, hA] at hp ⊢
      have h1 := mem_eraseA hp
      simp only [insertA, lookupA, if_neg (Ne.symm h1.2)]
      rw [lookupA_eraseA, if_neg h1.2]
      exact hd p h1.1
  | setStatus name s =>
    simpa [applyOp, change_sender_status_Authorized,
      change_sender_status_BlackListed] using hd

/-- Disjointness holds after any safe operation sequence. -/
theorem runFrom_disjoint (gid : String → String) (ops : List Op) :
    ∀ st : ConsoleState, disjointKeysB st.Authorized st.BlackListed = true →
      safeOpsB gid st ops = true →
      disjointKeysB (runFrom gid st ops).Authorized (runFrom gid st ops).BlackListed = true := by
  induction ops with
  | nil => intro st hd _; exact hd
  | cons op rest ih =>
    intro st hd hs
    rw [safeOpsB, Bool.and_eq_true] at hs
    exact ih _ (disjoint_preserved gid op st hd hs.1) hs.2

/-! ### The claims -/

/-- Claim C1 (code bug): the spec requires every send through a handle
obtained from `new_sender` to consult the registry and fail with an
`Unauthorized` error once the id is no longer Authorized, and structs.rs's
own header comment says a sender "must be in the Authorized list and NOT
in the BlackListed list to be able to send"; but the code gives out raw
channel clones, so after blacklisting the id derived from "alice" a send
through its handle still enqueues the message, with no error path at all. -/
theorem send_after_blacklist_enqueues :
    lookupA (add_to_blacklist hashStandIn "alice"
      (new_sender hashStandIn "alice" initialConsole)).Authorized (hashStandIn "alice") = none
  ∧ lookupA (add_to_blacklist hashStandIn "alice"
      (new_sender hashStandIn "alice" initialConsole)).BlackListed (hashStandIn "alice") = some ()
  ∧ (rawSend (add_to_blacklist hashStandIn "alice"
      (new_sender hashStandIn "alice" initialConsole)) "m").queue = ["m"] := by
  refine ⟨rfl, rfl, rfl⟩

/-- Claim C2 (counterexample): the Authorized and BlackListed key sets are
not disjoint in every reachable state: registering "a", blacklisting it,
and registering it again leaves its derived id a key of both maps. -/
theorem reregister_breaks_disjointness :
    lookupA (runOps hashStandIn
      [Op.newSender "a", Op.blacklistOp "a", Op.newSender "a"]).Authorized
      (hashStandIn "a") = some ()
  ∧ lookupA (runOps hashStandIn
      [Op.newSender "a", Op.blacklistOp "a", Op.newSender "a"]).BlackListed
      (hashStandIn "a") = some ()
  ∧ disjointKeysB (runOps hashStandIn
      [Op.newSender "a", Op.blacklistOp "a", Op.newSender "a"]).Authorized
      (runOps hashStandIn
      [Op.newSender "a", Op.blacklistOp "a", Op.newSender "a"]).BlackListed = false := by
  refine ⟨rfl, rfl, rfl⟩

/-- Claim C2 (amended): the Authorized and BlackListed key sets are
disjoint in every state reachable from the empty Console by a sequence of
operations in which `new_sender` is never called for a name whose derived
id is currently a BlackListed key; the unrestricted claim fails because
`new_sender` re-inserts the id into Authorized without removing it from
BlackListed. -/
theorem disjointness_under_safe_traces (gid : String → String) (ops : List Op)
    (h : safeOpsB gid initialConsole ops = true) :
    disjointKeysB (runOps gid ops).Authorized (runOps gid ops).BlackListed = true :=
  runFrom_disjoint gid ops initialConsole rfl h

/-- Witness for the amended claim C2 at the concrete trace
`[newSender "a", blacklistOp "a"]` under the stand-in id derivation. -/
theorem disjointness_under_safe_traces_witness :
    safeOpsB hashStandIn initialConsole [Op.newSender "a", Op.blacklistOp "a"] = true
  ∧ disjointKeysB
      (runOps hashStandIn [Op.newSender "a", Op.blacklistOp "a"]).Authorized
      (runOps hashStandIn [Op.newSender "a", Op.blacklistOp "a"]).BlackListed = true :=
  ⟨by decide, disjointness_under_safe_traces hashStandIn
    [Op.newSender "a", Op.blacklistOp "a"] (by decide)⟩

/-- Claim C3 (code bug): at end of input `read_line` yields `Ok(0)` with
an empty buffer; the exit/quit guard of the first match arm applies to the
whole pattern `Ok(0) | Ok(_)`, so the empty buffer fails the guard and the
iteration forwards the trimmed empty line and continues instead of sending
the sentinel and stopping; and even on an explicit "exit" line, where the
arm does stop the loop, the sentinel send future of line 63 is never
awaited, so the sentinel is never enqueued. -/
theorem input_loop_eof_and_exit_eval :
    inputStep (ReadResult.ok 0 "") =
      { enqueued := some "", droppedSendArg := none, stops := false }
  ∧ inputStep (ReadResult.ok 5 "exit\n") =
      { enqueued := none, droppedSendArg := some USER_BREAK, stops := true } := by
  refine ⟨rfl, rfl⟩

/-- Claim C4 (counterexample): set the phonebook status of "a" to
BlackListed, then call `new_sender "a"` again: the stored status is
Authorized afterwards, not BlackListed as the claim states. -/
theorem reregister_restores_authorized :
    get_sender_status
      (change_sender_status hashStandIn "a" SenderStatus.BlackListed
        (new_sender hashStandIn "a" initialConsole)) (hashStandIn "a")
      = SenderStatus.BlackListed
  ∧ get_sender_status
      (new_sender hashStandIn "a"
        (change_sender_status hashStandIn "a" SenderStatus.BlackListed
          (new_sender hashStandIn "a" initialConsole))) (hashStandIn "a")
      = SenderStatus.Authorized := by
  refine ⟨rfl, rfl⟩

/-- Claim C4 (amended): re-registration is not idempotent on status;
`new_sender name` unconditionally overwrites the phonebook entry with
status Authorized, so an entry whose status was BlackListed reads
Authorized after the call. -/
theorem new_sender_overwrites_blacklisted_status (gid : String → String)
    (st : ConsoleState) (name : String)
    (h : get_sender_status st (gid name) = SenderStatus.BlackListed) :
    get_sender_status (new_sender gid name st) (gid name) = SenderStatus.Authorized := by
  simp [get_sender_status, new_sender, lookupA_insertA_self]

/-- Witness for the amended claim C4 at the concrete blacklisted entry for
"a" under the stand-in id derivation. -/
theorem new_sender_overwrites_blacklisted_status_witness :
    get_sender_status
      (change_sender_status hashStandIn "a" SenderStatus.BlackListed
        (new_sender hashStandIn "a" initialConsole)) (hashStandIn "a")
      = SenderStatus.BlackListed
  ∧ get_sender_status
      (new_sender hashStandIn "a"
        (change_sender_status hashStandIn "a" SenderStatus.BlackListed
          (new_sender hashStandIn "a" initialConsole))) (hashStandIn "a")
      = SenderStatus.Authorized :=
  ⟨by decide,
   new_sender_overwrites_blacklisted_status hashStandIn
     (change_sender_status hashStandIn "a" SenderStatus.BlackListed
       (new_sender hashStandIn "a" initialConsole)) "a" (by decide)⟩

/-- Claim C5 (code bug): register "alice" (phonebook key `#alice` under
the stand-in derivation), then call `change_sender_status` with the
literal key `#alice`: the id-first lookup under `##alice` misses, the
fallback lookup finds the entry at `#alice`, but the update is inserted
under `##alice` — the hash of the id — so the entry that was found still
reads Authorized and a later status lookup does not return the new
status, contrary to the function's own doc comment "Update the
Senderstatus by either identifier or plaintext name". -/
theorem set_status_fallback_misdirects :
    lookupA (new_sender hashStandIn "alice" initialConsole).phonebook "#alice"
      = some ("alice", SenderStatus.Authorized)
  ∧ lookupA (new_sender hashStandIn "alice" initialConsole).phonebook
      (hashStandIn "#alice") = none
  ∧ get_sender_status
      (change_sender_status hashStandIn "#alice" SenderStatus.BlackListed
        (new_sender hashStandIn "alice" initialConsole)) "#alice"
      = SenderStatus.Authorized
  ∧ lookupA
      (change_sender_status hashStandIn "#alice" SenderStatus.BlackListed
        (new_sender hashStandIn "alice" initialConsole)).phonebook "##alice"
      = some ("alice", SenderStatus.BlackListed) := by
  refine ⟨rfl, rfl, rfl, rfl⟩

/-- Claim C6 (confirmed): when the sentinel is enqueued after ordinary
messages (none of which passes the stop test), the consumer renders
exactly those messages, in order, and stops at the sentinel: nothing
enqueued after the sentinel is delivered. -/
theorem sentinel_fifo_delivery (ms : List String) (rest : List (Option String))
    (h : ∀ m ∈ ms, sentinelTest m = false) :
    consumerRun (ms.map some ++ some USER_BREAK :: rest) = ms := by
  induction ms with
  | nil => simp [consumerRun, consumerStep, sentinelTest_USER_BREAK]
  | cons m ms ih =>
    have hm : sentinelTest m = false := h m (List.mem_cons_self _ _)
    simp only [List.map_cons, List.cons_append, consumerRun, consumerStep, hm]
    simp only [Bool.false_eq_true, if_false]
    exact congrArg (m :: ·) (ih fun x hx => h x (List.mem_cons_of_mem _ hx))

/-- Witness for claim C6 at the concrete trace "hello", "world", sentinel,
"after". -/
theorem sentinel_fifo_delivery_witness :
    (∀ m ∈ (["hello", "world"] : List String), sentinelTest m = false)
  ∧ consumerRun ((["hello", "world"] : List String).map some
      ++ some USER_BREAK :: [some "after"]) = ["hello", "world"] :=
  ⟨by decide, sentinel_fifo_delivery ["hello", "world"] [some "after"] (by decide)⟩

/-- Claim C7 (confirmed): when the id derived from the argument is not a
key of the Authorized map, `add_to_blacklist` leaves the whole Console
state — BlackListed, Authorized, phonebook and channel — unchanged (it
only prints "Sender not found"). -/
theorem blacklist_miss_is_noop (gid : String → String) (st : ConsoleState)
    (ident : String) (h : lookupA st.Authorized (gid ident) = none) :
    add_to_blacklist gid ident st = st := by
  simp [add_to_blacklist, h]

/-- Witness for claim C7 on the empty Console and the name "a". -/
theorem blacklist_miss_is_noop_witness :
    lookupA initialConsole.Authorized (hashStandIn "a") = none
  ∧ add_to_blacklist hashStandIn "a" initialConsole = initialConsole :=
  ⟨rfl, blacklist_miss_is_noop hashStandIn initialConsole "a" rfl⟩

/-- Claim C8 (confirmed): immediately after `new_sender name`, the status
stored in the phonebook under the id derived from `name` is Authorized. -/
theorem status_after_new_sender (gid : String → String) (st : ConsoleState)
    (name : String) :
    get_sender_status (new_sender gid name st) (gid name) = SenderStatus.Authorized := by
  simp [get_sender_status, new_sender, lookupA_insertA_self]

/-- Claim C9 (counterexample): the consumer's stop condition is not
literal equality with the sentinel: the message "user_break_$0uu" differs
from `USER_BREAK_$0uU`, yet the loop stops on it and delivers nothing
(not it, and not the following message). -/
theorem consumer_stops_on_nonliteral_sentinel :
    ("user_break_$0uu" : String) ≠ USER_BREAK
  ∧ consumerRun [some "user_break_$0uu", some "x"] = [] := by
  refine ⟨by decide, rfl⟩

/-- Claim C9 (amended): the consumer loop stops exactly when the received
message, after trimming, case-insensitively equals the sentinel — in
particular when it literally equals it — and a closed channel (a `recv`
yielding nothing) is treated as a virtual sentinel; in both cases the loop
terminates and no further message is rendered, and on any other message
the loop renders it and continues. -/
theorem consumer_stop_characterization (m : String) (es : List (Option String)) :
    consumerRun (none :: es) = []
  ∧ (eqIgnoreAsciiCase (rustTrim m) USER_BREAK = true →
      consumerRun (some m :: es) = [])
  ∧ (eqIgnoreAsciiCase (rustTrim m) USER_BREAK = false →
      consumerRun (some m :: es) = m :: consumerRun es) := by
  refine ⟨?_, fun h => ?_, fun h => ?_⟩
  · simp [consumerRun, consumerStep, sentinelTest_USER_BREAK]
  · simp [consumerRun, consumerStep, sentinelTest, h]
  · simp [consumerRun, consumerStep, sentinelTest, h]

/-- Witness for the amended claim C9: a closed channel stops the loop, the
literal sentinel stops the loop, and the ordinary message "hi" is rendered
with the loop continuing behind it. -/
theorem consumer_stop_characterization_witness :
    consumerRun [(none : Option String)] = []
  ∧ consumerRun [some USER_BREAK] = []
  ∧ consumerRun [some "hi", (none : Option String)] = "hi" :: consumerRun [(none : Option String)] :=
  ⟨(consumer_stop_characterization "hi" []).1,
   (consumer_stop_characterization USER_BREAK []).2.1 (by decide),
   (consumer_stop_characterization "hi" [(none : Option String)]).2.2 (by decide)⟩

/-- Claim C10 (confirmed): the consumer's sentinel test trims the message
and compares ASCII-case-insensitively, so any received message whose
trimmed content case-insensitively equals "USER_BREAK_$0uU" terminates the
loop without being rendered — such payloads are never delivered even when
they differ from the literal sentinel string. -/
theorem trimmed_sentinel_never_rendered (m : String) (es : List (Option String))
    (h : eqIgnoreAsciiCase (rustTrim m) USER_BREAK = true) :
    consumerRun (some m :: es) = [] := by
  simp [consumerRun, consumerStep, sentinelTest, h]

/-- Witness for claim C10 at the payload "  user_break_$0uu ", which is
not the literal sentinel but trims and case-folds to it. -/
theorem trimmed_sentinel_never_rendered_witness :
    eqIgnoreAsciiCase (rustTrim "  user_break_$0uu ") USER_BREAK = true
  ∧ consumerRun [some "  user_break_$0uu ", some "x"] = [] :=
  ⟨by decide, trimmed_sentinel_never_rendered "  user_break_$0uu " [some "x"] (by decide)⟩

end DualZone
